import Mathlib

/-!
Verification of the AYUSH health-analytics scoring engine.

Shallow embedding of the three pure scoring functions of
`utils/ayush-algorithms` (`calculateDoshaProfile`, `predictDiseases`,
`calculateLifestyleRisk`) together with `getDominantDosha`, and proofs of the
specification's claims about them.

JavaScript numbers are modelled as exact rationals (`ℚ`); all quantities the
engine manipulates are small integers and short decimal constants, far from
any double-precision rounding boundary, so the rational model is exact.
`Math.round` is modelled as `⌊x + 1/2⌋` (round half toward `+∞`), which is
its behaviour on all numbers.  `Array.prototype.sort` with the comparator
`(a, b) => b.p - a.p` is modelled as a stable insertion sort descending on
the key `p`, its guaranteed (ES2019) behaviour.
-/

set_option linter.unusedVariables false

namespace Ayush

/-- Enum `'cold' | 'neutral' | 'warm'` -/
inductive BodyTemperature | cold | neutral | warm
deriving DecidableEq, Fintype, Repr

/-- Enum `'irregular' | 'strong' | 'slow'` -/
inductive Digestion | irregular | strong | slow
deriving DecidableEq, Fintype, Repr

/-- Enum `'light' | 'moderate' | 'deep'` -/
inductive SleepPattern | light | moderate | deep
deriving DecidableEq, Fintype, Repr

/-- Enum `'variable' | 'high' | 'steady'` -/
inductive EnergyLevel | «variable» | high | steady
deriving DecidableEq, Fintype, Repr

/-- Enum `'dry' | 'oily' | 'normal'` -/
inductive SkinType | dry | oily | normal
deriving DecidableEq, Fintype, Repr

/-- Enum `'high' | 'moderate' | 'low'` -/
inductive StressLevel | high | moderate | low
deriving DecidableEq, Fintype, Repr

/-- Enum `'daily' | 'weekly' | 'rarely'` -/
inductive ExerciseFrequency | daily | weekly | rarely
deriving DecidableEq, Fintype, Repr

/-- Enum `'vegetarian' | 'non-vegetarian' | 'vegan'` -/
inductive Diet | vegetarian | nonVegetarian | vegan
deriving DecidableEq, Fintype, Repr

/-- Enum `'regular' | 'irregular'` -/
inductive MealTiming | regular | irregular
deriving DecidableEq, Fintype, Repr

/-- Enum `'low' | 'moderate' | 'high'` -/
inductive WaterIntake | low | moderate | high
deriving DecidableEq, Fintype, Repr

/-- Enum `'yoga' | 'meditation' | 'none' | 'other'` -/
inductive StressManagement | yoga | meditation | none | other
deriving DecidableEq, Fintype, Repr

/-- Enum `'low' | 'moderate' | 'high'` severity tier of a prediction. -/
inductive Severity | low | moderate | high
deriving DecidableEq, Fintype, Repr

/-- Source: `interface DoshaScores` -/
structure DoshaScores where
  vata : ℚ
  pitta : ℚ
  kapha : ℚ
deriving DecidableEq, Repr

/-- Source: `interface HealthParameters` -/
structure HealthParameters where
  age : ℚ
  weight : ℚ
  height : ℚ
  bodyTemperature : BodyTemperature
  digestion : Digestion
  sleepPattern : SleepPattern
  energyLevel : EnergyLevel
  skinType : SkinType
  stressLevel : StressLevel
  exerciseFrequency : ExerciseFrequency
deriving DecidableEq, Repr

/-- Source: `interface LifestyleFactors`.  The declared TypeScript interface has the
first seven fields only; `predictDiseases` and `calculateLifestyleRisk`
additionally read `lifestyle.exerciseFrequency`, a property absent from the
interface, so at runtime it may be `undefined` (the shipped assessment form
never sets it).  It is therefore modelled as an `Option`: `none` is
JavaScript `undefined`, which compares unequal to every enum string. -/
structure LifestyleFactors where
  diet : Diet
  mealTiming : MealTiming
  waterIntake : WaterIntake
  sleepHours : ℚ
  exerciseMinutes : ℚ
  stressManagement : StressManagement
  screenTime : ℚ
  exerciseFrequency : Option ExerciseFrequency
deriving DecidableEq, Repr

/-- Source: `interface DiseasePrediction` -/
structure DiseasePrediction where
  disease : String
  probability : ℚ
  severity : Severity
  ayushSystem : String
  recommendations : List String
deriving DecidableEq, Repr

/-- One element of the `riskFactors` array of `calculateLifestyleRisk`. -/
structure RiskFactor where
  factor : String
  impact : String
  score : ℚ
deriving DecidableEq, Repr

/-- The return record of `calculateLifestyleRisk`. -/
structure LifestyleRiskReport where
  overallRisk : ℚ
  riskFactors : List RiskFactor
deriving DecidableEq, Repr

/-- JavaScript `Math.round`: round half toward positive infinity. -/
def jsRound (q : ℚ) : ℤ := ⌊q + 1 / 2⌋

/-- The `vata` accumulator of `calculateDoshaProfile`: the sum of the
`vata += …` additions performed by its sequence of `if` statements. -/
def vataAcc (params : HealthParameters) : ℕ :=
  (if params.bodyTemperature = .cold then 2 else 0) +
  (if params.digestion = .irregular then 3 else 0) +
  (if params.sleepPattern = .light then 2 else 0) +
  (if params.energyLevel = .«variable» then 2 else 0) +
  (if params.skinType = .dry then 2 else 0) +
  (if params.stressLevel = .high then 2 else 0)

/-- The `pitta` accumulator of `calculateDoshaProfile`. -/
def pittaAcc (params : HealthParameters) : ℕ :=
  (if params.bodyTemperature = .warm then 2 else 0) +
  (if params.digestion = .strong then 3 else 0) +
  (if params.sleepPattern = .moderate then 2 else 0) +
  (if params.energyLevel = .high then 2 else 0) +
  (if params.skinType = .oily then 2 else 0) +
  (if params.stressLevel = .moderate then 1 else 0)

/-- The `kapha` accumulator of `calculateDoshaProfile`. -/
def kaphaAcc (params : HealthParameters) : ℕ :=
  (if params.bodyTemperature = .neutral then 1 else 0) +
  (if params.digestion = .slow then 3 else 0) +
  (if params.sleepPattern = .deep then 2 else 0) +
  (if params.energyLevel = .steady then 2 else 0) +
  (if params.skinType = .normal then 1 else 0) +
  (if params.stressLevel = .low then 1 else 0)

/-- Source: `calculateDoshaProfile`: accumulate the weight table, then normalize each
accumulator to `Math.round(acc / total * 100)`. -/
def calculateDoshaProfile (params : HealthParameters) : DoshaScores :=
  let vata : ℚ := vataAcc params
  let pitta : ℚ := pittaAcc params
  let kapha : ℚ := kaphaAcc params
  let total : ℚ := vata + pitta + kapha
  { vata := jsRound (vata / total * 100)
    pitta := jsRound (pitta / total * 100)
    kapha := jsRound (kapha / total * 100) }

/-- The total of the three accumulators (the normalization denominator). -/
def totalAcc (params : HealthParameters) : ℕ :=
  vataAcc params + pittaAcc params + kaphaAcc params

/-- Value of `Math.round(v / t * 100)` computed entirely in `ℕ`:
`⌊v/t·100 + 1/2⌋ = ⌊(200v + t)/(2t)⌋`. -/
def roundPercent (v t : ℕ) : ℕ := (200 * v + t) / (2 * t)

theorem jsRound_div_mul_hundred (v t : ℕ) (ht : 0 < t) :
    jsRound ((v : ℚ) / t * 100) = (roundPercent v t : ℤ) := by
  have ht' : (t : ℚ) ≠ 0 := Nat.cast_ne_zero.mpr ht.ne'
  have key : (v : ℚ) / t * 100 + 1 / 2 = ((200 * v + t : ℤ) : ℚ) / ((2 * t : ℕ) : ℚ) := by
    push_cast
    field_simp
    ring
  rw [jsRound, key, Rat.floor_intCast_div_natCast, roundPercent]
  push_cast [Int.ofNat_tdiv]
  norm_num

/-- The three accumulators as a function of the six scored categorical
attributes alone. -/
def accsOf (bt : BodyTemperature) (dg : Digestion) (sl : SleepPattern)
    (en : EnergyLevel) (sk : SkinType) (st : StressLevel) : ℕ × ℕ × ℕ :=
  (vataAcc ⟨0, 0, 0, bt, dg, sl, en, sk, st, .daily⟩,
   pittaAcc ⟨0, 0, 0, bt, dg, sl, en, sk, st, .daily⟩,
   kaphaAcc ⟨0, 0, 0, bt, dg, sl, en, sk, st, .daily⟩)

theorem vataAcc_eq_accsOf (p : HealthParameters) :
    vataAcc p = (accsOf p.bodyTemperature p.digestion p.sleepPattern
      p.energyLevel p.skinType p.stressLevel).1 := rfl

theorem pittaAcc_eq_accsOf (p : HealthParameters) :
    pittaAcc p = (accsOf p.bodyTemperature p.digestion p.sleepPattern
      p.energyLevel p.skinType p.stressLevel).2.1 := rfl

theorem kaphaAcc_eq_accsOf (p : HealthParameters) :
    kaphaAcc p = (accsOf p.bodyTemperature p.digestion p.sleepPattern
      p.energyLevel p.skinType p.stressLevel).2.2 := rfl

theorem totalAcc_pos (p : HealthParameters) : 0 < totalAcc p := by
  have h : ∀ (bt : BodyTemperature) (dg : Digestion) (sl : SleepPattern)
      (en : EnergyLevel) (sk : SkinType) (st : StressLevel),
      0 < (accsOf bt dg sl en sk st).1 + (accsOf bt dg sl en sk st).2.1 +
        (accsOf bt dg sl en sk st).2.2 := by decide
  rw [totalAcc, vataAcc_eq_accsOf, pittaAcc_eq_accsOf, kaphaAcc_eq_accsOf]
  exact h _ _ _ _ _ _

/-- The normalization step of `calculateDoshaProfile`, rewritten with `ℕ`
arithmetic: each output percentage is `roundPercent acc total`. -/
theorem calculateDoshaProfile_eq_roundPercent (p : HealthParameters) :
    calculateDoshaProfile p =
      { vata := (roundPercent (vataAcc p) (totalAcc p) : ℕ)
        pitta := (roundPercent (pittaAcc p) (totalAcc p) : ℕ)
        kapha := (roundPercent (kaphaAcc p) (totalAcc p) : ℕ) } := by
  have ht := totalAcc_pos p
  have hcast : ((vataAcc p : ℚ) + (pittaAcc p : ℚ) + (kaphaAcc p : ℚ)) =
      ((totalAcc p : ℕ) : ℚ) := by
    rw [totalAcc]; push_cast; ring
  simp only [calculateDoshaProfile, hcast, jsRound_div_mul_hundred _ _ ht]
  norm_cast

/-- Exhaustive check over all `3^6 = 729` categorical combinations: the three
independently rounded percentages always sum to 99, 100 or 101. -/
theorem sum_roundPercent_cases :
    ∀ (bt : BodyTemperature) (dg : Digestion) (sl : SleepPattern)
      (en : EnergyLevel) (sk : SkinType) (st : StressLevel),
      roundPercent (accsOf bt dg sl en sk st).1
          ((accsOf bt dg sl en sk st).1 + (accsOf bt dg sl en sk st).2.1 +
            (accsOf bt dg sl en sk st).2.2) +
        roundPercent (accsOf bt dg sl en sk st).2.1
          ((accsOf bt dg sl en sk st).1 + (accsOf bt dg sl en sk st).2.1 +
            (accsOf bt dg sl en sk st).2.2) +
        roundPercent (accsOf bt dg sl en sk st).2.2
          ((accsOf bt dg sl en sk st).1 + (accsOf bt dg sl en sk st).2.1 +
            (accsOf bt dg sl en sk st).2.2) = 99 ∨
      roundPercent (accsOf bt dg sl en sk st).1
          ((accsOf bt dg sl en sk st).1 + (accsOf bt dg sl en sk st).2.1 +
            (accsOf bt dg sl en sk st).2.2) +
        roundPercent (accsOf bt dg sl en sk st).2.1
          ((accsOf bt dg sl en sk st).1 + (accsOf bt dg sl en sk st).2.1 +
            (accsOf bt dg sl en sk st).2.2) +
        roundPercent (accsOf bt dg sl en sk st).2.2
          ((accsOf bt dg sl en sk st).1 + (accsOf bt dg sl en sk st).2.1 +
            (accsOf bt dg sl en sk st).2.2) = 100 ∨
      roundPercent (accsOf bt dg sl en sk st).1
          ((accsOf bt dg sl en sk st).1 + (accsOf bt dg sl en sk st).2.1 +
            (accsOf bt dg sl en sk st).2.2) +
        roundPercent (accsOf bt dg sl en sk st).2.1
          ((accsOf bt dg sl en sk st).1 + (accsOf bt dg sl en sk st).2.1 +
            (accsOf bt dg sl en sk st).2.2) +
        roundPercent (accsOf bt dg sl en sk st).2.2
          ((accsOf bt dg sl en sk st).1 + (accsOf bt dg sl en sk st).2.1 +
            (accsOf bt dg sl en sk st).2.2) = 101 := by decide

theorem totalAcc_eq_accsOf (p : HealthParameters) :
    totalAcc p = (accsOf p.bodyTemperature p.digestion p.sleepPattern
        p.energyLevel p.skinType p.stressLevel).1 +
      (accsOf p.bodyTemperature p.digestion p.sleepPattern
        p.energyLevel p.skinType p.stressLevel).2.1 +
      (accsOf p.bodyTemperature p.digestion p.sleepPattern
        p.energyLevel p.skinType p.stressLevel).2.2 := rfl

/-- The input from §8's first counterexample hunt: cold body temperature,
irregular digestion, light sleep, high energy, oily skin, low stress.
Accumulators `(7, 4, 1)`, total 12, percentages `(58, 33, 8)`. -/
def c1Params : HealthParameters :=
  { age := 30, weight := 70, height := 170, bodyTemperature := .cold
    digestion := .irregular, sleepPattern := .light, energyLevel := .high
    skinType := .oily, stressLevel := .low, exerciseFrequency := .daily }

/-- C1 counterexample: on a valid fully-populated input the three output
percentages of `calculateDoshaProfile` sum to 99, not 100. -/
theorem C1_counterexample :
    (calculateDoshaProfile c1Params).vata = 58 ∧
    (calculateDoshaProfile c1Params).pitta = 33 ∧
    (calculateDoshaProfile c1Params).kapha = 8 ∧
    (calculateDoshaProfile c1Params).vata + (calculateDoshaProfile c1Params).pitta +
      (calculateDoshaProfile c1Params).kapha = 99 ∧ (99 : ℚ) ≠ 100 := by
  rw [calculateDoshaProfile_eq_roundPercent]
  have hv : roundPercent (vataAcc c1Params) (totalAcc c1Params) = 58 := by decide
  have hp : roundPercent (pittaAcc c1Params) (totalAcc c1Params) = 33 := by decide
  have hk : roundPercent (kaphaAcc c1Params) (totalAcc c1Params) = 8 := by decide
  rw [hv, hp, hk]
  norm_num

/-- C1 (amended): for every valid input the three percentages returned by
`calculateDoshaProfile` are non-negative integers, and their sum is 99, 100
or 101 — independent per-component rounding can miss exactly 100 by one in
either direction. -/
theorem C1_profile_sum_within_one (p : HealthParameters) :
    (∃ nv : ℕ, (calculateDoshaProfile p).vata = nv) ∧
    (∃ np : ℕ, (calculateDoshaProfile p).pitta = np) ∧
    (∃ nk : ℕ, (calculateDoshaProfile p).kapha = nk) ∧
    0 ≤ (calculateDoshaProfile p).vata ∧
    0 ≤ (calculateDoshaProfile p).pitta ∧
    0 ≤ (calculateDoshaProfile p).kapha ∧
    ((calculateDoshaProfile p).vata + (calculateDoshaProfile p).pitta +
        (calculateDoshaProfile p).kapha = 99 ∨
      (calculateDoshaProfile p).vata + (calculateDoshaProfile p).pitta +
        (calculateDoshaProfile p).kapha = 100 ∨
      (calculateDoshaProfile p).vata + (calculateDoshaProfile p).pitta +
        (calculateDoshaProfile p).kapha = 101) := by
  rw [calculateDoshaProfile_eq_roundPercent]
  refine ⟨⟨_, rfl⟩, ⟨_, rfl⟩, ⟨_, rfl⟩, Nat.cast_nonneg _, Nat.cast_nonneg _,
    Nat.cast_nonneg _, ?_⟩
  have h := sum_roundPercent_cases p.bodyTemperature p.digestion p.sleepPattern
    p.energyLevel p.skinType p.stressLevel
  rw [← totalAcc_eq_accsOf, ← vataAcc_eq_accsOf, ← pittaAcc_eq_accsOf,
    ← kaphaAcc_eq_accsOf] at h
  rcases h with h | h | h
  · left; dsimp only; exact_mod_cast congrArg (Nat.cast (R := ℚ)) h
  · right; left; dsimp only; exact_mod_cast congrArg (Nat.cast (R := ℚ)) h
  · right; right; dsimp only; exact_mod_cast congrArg (Nat.cast (R := ℚ)) h

/-- The end-to-end example input of §8: all six scored attributes take their
first-column (A) value, except none contributes to B or C. -/
def c3Params : HealthParameters :=
  { age := 30, weight := 70, height := 170, bodyTemperature := .cold
    digestion := .irregular, sleepPattern := .light, energyLevel := .«variable»
    skinType := .dry, stressLevel := .high, exerciseFrequency := .rarely }

/-- C3 counterexample: on the example input the accumulators are
`(13, 0, 0)` with total 13 — not `(13, 0, 1)` with total 14 — and the primary
percentage is 100, not 93. -/
theorem C3_counterexample :
    vataAcc c3Params = 13 ∧ pittaAcc c3Params = 0 ∧ kaphaAcc c3Params = 0 ∧
    totalAcc c3Params = 13 ∧ (13 : ℕ) ≠ 14 ∧
    (calculateDoshaProfile c3Params).vata = 100 ∧ (100 : ℚ) ≠ 93 := by
  have hv : roundPercent (vataAcc c3Params) (totalAcc c3Params) = 100 := by decide
  refine ⟨by decide, by decide, by decide, by decide, by decide, ?_, by norm_num⟩
  rw [calculateDoshaProfile_eq_roundPercent, hv]
  norm_num

/-- C3 (amended): on the example input the accumulators are `A = 13`,
`B = 0`, `C = 0` (exercise frequency contributes nothing and no attribute
feeds C), total 13, so the primary percentage is `round(13/13·100) = 100`
and the full output is `(100, 0, 0)`, summing to 100. -/
theorem C3_example_end_to_end :
    vataAcc c3Params = 13 ∧ pittaAcc c3Params = 0 ∧ kaphaAcc c3Params = 0 ∧
    totalAcc c3Params = 13 ∧
    calculateDoshaProfile c3Params = ⟨100, 0, 0⟩ ∧
    (calculateDoshaProfile c3Params).vata + (calculateDoshaProfile c3Params).pitta +
      (calculateDoshaProfile c3Params).kapha = 100 := by
  have hv : roundPercent (vataAcc c3Params) (totalAcc c3Params) = 100 := by decide
  have hp : roundPercent (pittaAcc c3Params) (totalAcc c3Params) = 0 := by decide
  have hk : roundPercent (kaphaAcc c3Params) (totalAcc c3Params) = 0 := by decide
  refine ⟨by decide, by decide, by decide, by decide, ?_, ?_⟩
  · rw [calculateDoshaProfile_eq_roundPercent, hv, hp, hk]
    norm_num
  · rw [calculateDoshaProfile_eq_roundPercent, hv, hp, hk]
    norm_num

/-- C8: for every (fully-populated, hence valid) input, the sum of the three
accumulators is strictly positive — every one of the six scored attributes
contributes at least one point — so the normalization denominator of
`calculateDoshaProfile` is nonzero and the division is never by zero. -/
theorem C8_total_positive (p : HealthParameters) :
    0 < totalAcc p ∧
    ((vataAcc p : ℚ) + (pittaAcc p : ℚ) + (kaphaAcc p : ℚ)) ≠ 0 := by
  refine ⟨totalAcc_pos p, ?_⟩
  have h : ((vataAcc p : ℚ) + (pittaAcc p : ℚ) + (kaphaAcc p : ℚ)) =
      ((totalAcc p : ℕ) : ℚ) := by rw [totalAcc]; push_cast; ring
  rw [h]
  exact_mod_cast (totalAcc_pos p).ne'

/-- A weight-table entry: which accumulator (0 = A/vata, 1 = B/pitta,
2 = C/kapha) gains, and how many points. -/
def contribVec : Fin 3 → ℕ → ℕ × ℕ × ℕ
  | 0, n => (n, 0, 0)
  | 1, n => (0, n, 0)
  | 2, n => (0, 0, n)

/-- The vector contributed by a table entry. -/
def entryVec (e : Fin 3 × ℕ) : ℕ × ℕ × ℕ := contribVec e.1 e.2

/-- Componentwise sum of accumulator vectors. -/
def addV (a b : ℕ × ℕ × ℕ) : ℕ × ℕ × ℕ :=
  (a.1 + b.1, a.2.1 + b.2.1, a.2.2 + b.2.2)

/-- Body-temperature row of the weight table: cold→A+2, warm→B+2,
neutral→C+1. -/
def bodyTemperatureEntry : BodyTemperature → Fin 3 × ℕ
  | .cold => (0, 2)
  | .warm => (1, 2)
  | .neutral => (2, 1)

/-- Digestion row: irregular→A+3, strong→B+3, slow→C+3. -/
def digestionEntry : Digestion → Fin 3 × ℕ
  | .irregular => (0, 3)
  | .strong => (1, 3)
  | .slow => (2, 3)

/-- Sleep-pattern row: light→A+2, moderate→B+2, deep→C+2. -/
def sleepPatternEntry : SleepPattern → Fin 3 × ℕ
  | .light => (0, 2)
  | .moderate => (1, 2)
  | .deep => (2, 2)

/-- Energy-level row: variable→A+2, high→B+2, steady→C+2. -/
def energyLevelEntry : EnergyLevel → Fin 3 × ℕ
  | .«variable» => (0, 2)
  | .high => (1, 2)
  | .steady => (2, 2)

/-- Skin-type row: dry→A+2, oily→B+2, normal→C+1. -/
def skinTypeEntry : SkinType → Fin 3 × ℕ
  | .dry => (0, 2)
  | .oily => (1, 2)
  | .normal => (2, 1)

/-- Stress-level row: high→A+2, moderate→B+1, low→C+1. -/
def stressLevelEntry : StressLevel → Fin 3 × ℕ
  | .high => (0, 2)
  | .moderate => (1, 1)
  | .low => (2, 1)

/-- The summed contribution of the six scored categorical attributes. -/
def sixContrib (p : HealthParameters) : ℕ × ℕ × ℕ :=
  addV (entryVec (bodyTemperatureEntry p.bodyTemperature))
    (addV (entryVec (digestionEntry p.digestion))
      (addV (entryVec (sleepPatternEntry p.sleepPattern))
        (addV (entryVec (energyLevelEntry p.energyLevel))
          (addV (entryVec (skinTypeEntry p.skinType))
            (entryVec (stressLevelEntry p.stressLevel))))))

/-- Claim C4 as stated: all **seven** categorical attributes — including
exercise frequency — each add a fixed point value of 1, 2 or 3 to exactly one
accumulator, and the accumulators decompose as the sum of those seven
contributions. -/
def SevenAttributeTableClaim : Prop :=
  ∃ exerciseFrequencyEntry : ExerciseFrequency → Fin 3 × ℕ,
    (∀ v, (exerciseFrequencyEntry v).2 = 1 ∨ (exerciseFrequencyEntry v).2 = 2 ∨
      (exerciseFrequencyEntry v).2 = 3) ∧
    ∀ p : HealthParameters,
      (vataAcc p, pittaAcc p, kaphaAcc p) =
        addV (sixContrib p) (entryVec (exerciseFrequencyEntry p.exerciseFrequency))

/-- C4 counterexample: no weight-table row for exercise frequency exists —
on the concrete §8 input the six-attribute table already accounts for the
whole accumulator vector `(13, 0, 0)`, leaving the alleged 1–3 point
exercise contribution no room. -/
theorem C4_counterexample : ¬ SevenAttributeTableClaim := by
  rintro ⟨t7, hpts, hall⟩
  have h := hall c3Params
  have hacc : (vataAcc c3Params, pittaAcc c3Params, kaphaAcc c3Params) =
      (13, 0, 0) := by decide
  have hsix : sixContrib c3Params = (13, 0, 0) := by decide
  rw [hacc, hsix] at h
  have hn := hpts c3Params.exerciseFrequency
  rcases hi : t7 c3Params.exerciseFrequency with ⟨i, n⟩
  rw [hi] at h hn
  fin_cases i <;>
    simp only [entryVec, contribVec, addV, Prod.mk.injEq] at h <;>
    omega

/-- C4 (amended): the **six** categorical attributes other than exercise
frequency each add a fixed 1–3 point value to exactly one accumulator per
the §4.1 table, the accumulators are exactly the sum of those six
contributions, and age, weight, height and exercise frequency contribute
nothing (the profile is invariant under changing them). -/
theorem C4_six_attribute_table (p : HealthParameters) :
    (vataAcc p, pittaAcc p, kaphaAcc p) = sixContrib p ∧
    ((∀ v, (bodyTemperatureEntry v).2 = 1 ∨ (bodyTemperatureEntry v).2 = 2 ∨
        (bodyTemperatureEntry v).2 = 3) ∧
      (∀ v, (digestionEntry v).2 = 1 ∨ (digestionEntry v).2 = 2 ∨
        (digestionEntry v).2 = 3) ∧
      (∀ v, (sleepPatternEntry v).2 = 1 ∨ (sleepPatternEntry v).2 = 2 ∨
        (sleepPatternEntry v).2 = 3) ∧
      (∀ v, (energyLevelEntry v).2 = 1 ∨ (energyLevelEntry v).2 = 2 ∨
        (energyLevelEntry v).2 = 3) ∧
      (∀ v, (skinTypeEntry v).2 = 1 ∨ (skinTypeEntry v).2 = 2 ∨
        (skinTypeEntry v).2 = 3) ∧
      (∀ v, (stressLevelEntry v).2 = 1 ∨ (stressLevelEntry v).2 = 2 ∨
        (stressLevelEntry v).2 = 3)) ∧
    (∀ q : HealthParameters, q.bodyTemperature = p.bodyTemperature →
      q.digestion = p.digestion → q.sleepPattern = p.sleepPattern →
      q.energyLevel = p.energyLevel → q.skinType = p.skinType →
      q.stressLevel = p.stressLevel →
      calculateDoshaProfile q = calculateDoshaProfile p) := by
  refine ⟨?_, ⟨by decide, by decide, by decide, by decide, by decide, by decide⟩, ?_⟩
  · have h : ∀ (bt : BodyTemperature) (dg : Digestion) (sl : SleepPattern)
        (en : EnergyLevel) (sk : SkinType) (st : StressLevel),
        accsOf bt dg sl en sk st =
          addV (entryVec (bodyTemperatureEntry bt))
            (addV (entryVec (digestionEntry dg))
              (addV (entryVec (sleepPatternEntry sl))
                (addV (entryVec (energyLevelEntry en))
                  (addV (entryVec (skinTypeEntry sk))
                    (entryVec (stressLevelEntry st)))))) := by decide
    have h' := h p.bodyTemperature p.digestion p.sleepPattern
      p.energyLevel p.skinType p.stressLevel
    rw [vataAcc_eq_accsOf, pittaAcc_eq_accsOf, kaphaAcc_eq_accsOf, sixContrib]
    rw [← h']
  · intro q h1 h2 h3 h4 h5 h6
    have hv : vataAcc q = vataAcc p := by
      rw [vataAcc_eq_accsOf, vataAcc_eq_accsOf, h1, h2, h3, h4, h5, h6]
    have hpi : pittaAcc q = pittaAcc p := by
      rw [pittaAcc_eq_accsOf, pittaAcc_eq_accsOf, h1, h2, h3, h4, h5, h6]
    have hk : kaphaAcc q = kaphaAcc p := by
      rw [kaphaAcc_eq_accsOf, kaphaAcc_eq_accsOf, h1, h2, h3, h4, h5, h6]
    have ht : totalAcc q = totalAcc p := by
      rw [totalAcc, totalAcc, hv, hpi, hk]
    rw [calculateDoshaProfile_eq_roundPercent, calculateDoshaProfile_eq_roundPercent,
      hv, hpi, hk, ht]

/-- Witness for `C4_six_attribute_table`: changing only age, weight, height
and exercise frequency leaves the computed profile unchanged. -/
theorem C4_six_attribute_table_witness :
    calculateDoshaProfile
        ⟨1, 50, 160, .cold, .irregular, .light, .«variable», .dry, .high, .daily⟩ =
      calculateDoshaProfile c3Params :=
  (C4_six_attribute_table c3Params).2.2
    ⟨1, 50, 160, .cold, .irregular, .light, .«variable», .dry, .high, .daily⟩
    rfl rfl rfl rfl rfl rfl

section SortDesc

variable {α β : Type}

/-- Stable insertion step of the model of `Array.prototype.sort` with the
comparator `(a, b) => key(b) - key(a)`: `x` is placed before the first
element whose key is at most `key x`. -/
def insertDescBy (key : α → ℚ) (x : α) : List α → List α
  | [] => [x]
  | y :: ys => if key y ≤ key x then x :: y :: ys else y :: insertDescBy key x ys

/-- Stable sort, descending on `key`: the (unique) permutation that is sorted
descending by `key` and keeps elements with equal keys in input order —
the guaranteed behaviour of JavaScript `Array.prototype.sort`. -/
def sortDescBy (key : α → ℚ) : List α → List α
  | [] => []
  | x :: xs => insertDescBy key x (sortDescBy key xs)

theorem mem_insertDescBy (key : α → ℚ) (x a : α) :
    ∀ l : List α, a ∈ insertDescBy key x l ↔ a = x ∨ a ∈ l := by
  intro l
  induction l with
  | nil => simp [insertDescBy]
  | cons y ys ih =>
    by_cases h : key y ≤ key x
    · simp [insertDescBy, h]
    · simp only [insertDescBy, if_neg h, List.mem_cons, ih]
      tauto

theorem mem_sortDescBy (key : α → ℚ) (a : α) :
    ∀ l : List α, a ∈ sortDescBy key l ↔ a ∈ l := by
  intro l
  induction l with
  | nil => simp [sortDescBy]
  | cons y ys ih => simp [sortDescBy, mem_insertDescBy, ih]

theorem pairwise_insertDescBy (key : α → ℚ) (x : α) :
    ∀ l : List α, List.Pairwise (fun a b => key b ≤ key a) l →
      List.Pairwise (fun a b => key b ≤ key a) (insertDescBy key x l) := by
  intro l
  induction l with
  | nil => intro _; simp [insertDescBy]
  | cons y ys ih =>
    intro hp
    rw [List.pairwise_cons] at hp
    obtain ⟨hy, hys⟩ := hp
    by_cases h : key y ≤ key x
    · simp only [insertDescBy, if_pos h]
      refine List.Pairwise.cons ?_ (List.Pairwise.cons hy hys)
      intro b hb
      rcases List.mem_cons.mp hb with rfl | hb'
      · exact h
      · exact le_trans (hy b hb') h
    · simp only [insertDescBy, if_neg h]
      refine List.Pairwise.cons ?_ (ih hys)
      intro b hb
      rcases (mem_insertDescBy key x b ys).mp hb with rfl | hb'
      · exact le_of_lt (lt_of_not_le h)
      · exact hy b hb'

theorem sortDescBy_sorted (key : α → ℚ) :
    ∀ l : List α, List.Pairwise (fun a b => key b ≤ key a) (sortDescBy key l) := by
  intro l
  induction l with
  | nil => simp [sortDescBy]
  | cons y ys ih => exact pairwise_insertDescBy key y _ ih

/-- The order a stable descending sort puts on index-tagged elements:
either the key strictly decreases, or the keys tie and the original
positions (the tags) are in increasing order. -/
def StableRel (key : β → ℚ) (a b : ℕ × β) : Prop :=
  key b.2 < key a.2 ∨ (key a.2 = key b.2 ∧ a.1 < b.1)

theorem pairwise_stable_insertDescBy (key : β → ℚ) (x : ℕ × β) :
    ∀ l : List (ℕ × β), (∀ a ∈ l, x.1 < a.1) →
      List.Pairwise (StableRel key) l →
      List.Pairwise (StableRel key) (insertDescBy (fun e => key e.2) x l) := by
  intro l
  induction l with
  | nil => intro _ _; simp [insertDescBy]
  | cons y ys ih =>
    intro hlt hp
    rw [List.pairwise_cons] at hp
    obtain ⟨hy, hys⟩ := hp
    by_cases h : key y.2 ≤ key x.2
    · simp only [insertDescBy, if_pos h]
      refine List.Pairwise.cons ?_ (List.Pairwise.cons hy hys)
      intro b hb
      rcases List.mem_cons.mp hb with rfl | hb'
      · rcases lt_or_eq_of_le h with h' | h'
        · exact Or.inl h'
        · exact Or.inr ⟨h'.symm, hlt b (List.mem_cons_self _ _)⟩
      · have hb_le : key b.2 ≤ key y.2 := by
          rcases hy b hb' with h' | ⟨h', _⟩
          · exact le_of_lt h'
          · exact le_of_eq h'.symm
        rcases lt_or_eq_of_le (le_trans hb_le h) with h' | h'
        · exact Or.inl h'
        · exact Or.inr ⟨h'.symm, hlt b (List.mem_cons_of_mem y hb')⟩
    · simp only [insertDescBy, if_neg h]
      refine List.Pairwise.cons ?_
        (ih (fun a ha => hlt a (List.mem_cons_of_mem y ha)) hys)
      intro b hb
      rcases (mem_insertDescBy _ x b ys).mp hb with rfl | hb'
      · exact Or.inl (lt_of_not_le h)
      · exact hy b hb'

theorem pairwise_stable_sortDescBy (key : β → ℚ) :
    ∀ l : List (ℕ × β), List.Pairwise (fun a b : ℕ × β => a.1 < b.1) l →
      List.Pairwise (StableRel key) (sortDescBy (fun e => key e.2) l) := by
  intro l
  induction l with
  | nil => intro _; simp [sortDescBy]
  | cons y ys ih =>
    intro hp
    rw [List.pairwise_cons] at hp
    obtain ⟨hy, hys⟩ := hp
    refine pairwise_stable_insertDescBy key y _ ?_ (ih hys)
    intro a ha
    exact hy a ((mem_sortDescBy _ a ys).mp ha)

theorem map_snd_insertDescBy (key : β → ℚ) (x : ℕ × β) :
    ∀ l : List (ℕ × β),
      (insertDescBy (fun e => key e.2) x l).map Prod.snd =
        insertDescBy key x.2 (l.map Prod.snd) := by
  intro l
  induction l with
  | nil => simp [insertDescBy]
  | cons y ys ih =>
    by_cases h : key y.2 ≤ key x.2
    · simp [insertDescBy, h]
    · simp [insertDescBy, h, ih]

theorem map_snd_sortDescBy (key : β → ℚ) :
    ∀ l : List (ℕ × β),
      (sortDescBy (fun e => key e.2) l).map Prod.snd =
        sortDescBy key (l.map Prod.snd) := by
  intro l
  induction l with
  | nil => simp [sortDescBy]
  | cons y ys ih => simp [sortDescBy, map_snd_insertDescBy, ih]

theorem le_fst_of_mem_enumFrom {a : ℕ × β} :
    ∀ {l : List β} {n : ℕ}, a ∈ List.enumFrom n l → n ≤ a.1 := by
  intro l
  induction l with
  | nil => intro n h; simp [List.enumFrom] at h
  | cons y ys ih =>
    intro n h
    rcases List.mem_cons.mp h with rfl | h'
    · exact le_refl _
    · exact le_trans (Nat.le_succ n) (ih h')

theorem pairwise_fst_lt_enumFrom (l : List β) :
    ∀ n : ℕ, List.Pairwise (fun a b : ℕ × β => a.1 < b.1) (List.enumFrom n l) := by
  induction l with
  | nil => intro n; simp [List.enumFrom]
  | cons y ys ih =>
    intro n
    refine List.Pairwise.cons ?_ (ih (n + 1))
    intro b hb
    exact lt_of_lt_of_le (Nat.lt_succ_self n) (le_fst_of_mem_enumFrom hb)

theorem pairwise_fst_lt_enum (l : List β) :
    List.Pairwise (fun a b : ℕ × β => a.1 < b.1) (List.enum l) :=
  pairwise_fst_lt_enumFrom l 0

theorem map_snd_enumFrom (l : List β) :
    ∀ n : ℕ, (List.enumFrom n l).map Prod.snd = l := by
  induction l with
  | nil => intro n; simp [List.enumFrom]
  | cons y ys ih => intro n; simp [List.enumFrom, ih]

theorem map_snd_enum (l : List β) : (List.enum l).map Prod.snd = l :=
  map_snd_enumFrom l 0

end SortDesc

/-- Source: `const bmi = params.weight / Math.pow(params.height / 100, 2)`. -/
def bmiOf (params : HealthParameters) : ℚ := params.weight / (params.height / 100) ^ 2

/-- The list of predictions pushed by `predictDiseases`, in evaluation order
of its guards, before the final sort. -/
def predictionsList (doshaScores : DoshaScores) (lifestyle : LifestyleFactors)
    (params : HealthParameters) : List DiseasePrediction :=
  (if doshaScores.vata > 40 ∧ params.stressLevel = .high ∧ lifestyle.sleepHours < 6 then
    [{ disease := "Anxiety & Sleep Disorders"
       probability := 0.65 + doshaScores.vata / 200
       severity := if doshaScores.vata > 50 then .high else .moderate
       ayushSystem := "Ayurveda"
       recommendations :=
        ["Practice Vata-pacifying yoga (gentle, grounding poses)",
         "Follow regular meal times with warm, cooked foods",
         "Abhyanga (oil massage) with sesame oil",
         "Meditation and pranayama for stress reduction",
         "Ensure 7-8 hours of sleep"] }] else []) ++
  ((if doshaScores.vata > 40 ∧ params.digestion = .irregular then
    [{ disease := "Digestive Irregularity (Vishamagni)"
       probability := 0.55 + doshaScores.vata / 250
       severity := .moderate
       ayushSystem := "Ayurveda"
       recommendations :=
        ["Consume ginger tea before meals",
         "Avoid cold and raw foods",
         "Practice mindful eating",
         "Take Triphala supplement (consult practitioner)"] }] else []) ++
  ((if doshaScores.pitta > 40 ∧ params.stressLevel = .high ∧
      lifestyle.mealTiming = .irregular then
    [{ disease := "Hyperacidity & Inflammatory Conditions"
       probability := 0.60 + doshaScores.pitta / 200
       severity := if doshaScores.pitta > 50 then .high else .moderate
       ayushSystem := "Ayurveda"
       recommendations :=
        ["Avoid spicy, fried, and acidic foods",
         "Practice cooling pranayama (Shitali, Sitkari)",
         "Consume cooling foods (cucumber, coconut, coriander)",
         "Avoid excessive sun exposure",
         "Practice stress management techniques"] }] else []) ++
  ((if doshaScores.pitta > 40 ∧ params.bodyTemperature = .warm then
    [{ disease := "Skin Inflammation & Rashes"
       probability := 0.45 + doshaScores.pitta / 250
       severity := .moderate
       ayushSystem := "Ayurveda"
       recommendations :=
        ["Apply cooling herbs like neem and aloe vera",
         "Avoid hot and spicy foods",
         "Practice yoga in cooler hours",
         "Stay hydrated with room temperature water"] }] else []) ++
  ((if doshaScores.kapha > 40 ∧ bmiOf params > 25 ∧
      lifestyle.exerciseFrequency = some .rarely then
    [{ disease := "Metabolic Syndrome Risk"
       probability := 0.55 + doshaScores.kapha / 200 + (bmiOf params - 25) / 50
       severity := if bmiOf params > 30 then .high else .moderate
       ayushSystem := "Ayurveda & Yoga"
       recommendations :=
        ["Daily exercise (minimum 30 minutes)",
         "Avoid heavy, oily, and sweet foods",
         "Practice vigorous yoga styles (Surya Namaskar)",
         "Consume warm water with honey and lemon",
         "Include more vegetables and reduce dairy"] }] else []) ++
  ((if doshaScores.kapha > 40 ∧ params.digestion = .slow ∧
      lifestyle.waterIntake = .low then
    [{ disease := "Sluggish Digestion & Water Retention"
       probability := 0.50 + doshaScores.kapha / 250
       severity := .moderate
       ayushSystem := "Ayurveda & Naturopathy"
       recommendations :=
        ["Increase water intake (warm water preferred)",
         "Consume light, warm meals",
         "Practice Kapalabhati pranayama",
         "Add ginger, black pepper to diet",
         "Avoid sleeping during day"] }] else []) ++
  ((if lifestyle.screenTime > 8 ∧ params.stressLevel = .high then
    [{ disease := "Digital Eye Strain & Mental Fatigue"
       probability := 0.70
       severity := .moderate
       ayushSystem := "Yoga & Naturopathy"
       recommendations :=
        ["Practice Trataka (candle gazing) for eye health",
         "Follow 20-20-20 rule (every 20 min, look 20 feet away for 20 sec)",
         "Eye exercises and palming",
         "Reduce screen time before bed",
         "Use rose water eye drops (natural)"] }] else []) ++
  ((if lifestyle.sleepHours < 6 then
    [{ disease := "Sleep Deprivation Syndrome"
       probability := 0.75
       severity := if lifestyle.sleepHours < 5 then .high else .moderate
       ayushSystem := "Ayurveda & Yoga"
       recommendations :=
        ["Establish consistent sleep schedule",
         "Practice Yoga Nidra before bed",
         "Avoid caffeine after 3 PM",
         "Create dark, cool sleeping environment",
         "Massage feet with warm oil before sleep"] }] else []) ++
  ((if lifestyle.stressManagement = .none ∧ params.stressLevel = .high then
    [{ disease := "Chronic Stress & Burnout Risk"
       probability := 0.68
       severity := .high
       ayushSystem := "Yoga & Ayurveda"
       recommendations :=
        ["Start daily meditation practice (10-15 minutes)",
         "Practice pranayama (Anulom Vilom, Bhramari)",
         "Consider Ashwagandha supplementation (consult practitioner)",
         "Regular yoga practice",
         "Maintain work-life balance"] }] else []) ++
  (if params.energyLevel = .«variable» ∧ doshaScores.vata > 35 then
    [{ disease := "Constitutional Weakness"
       probability := 0.50
       severity := .low
       ayushSystem := "Homeopathy & Ayurveda"
       recommendations :=
        ["Constitutional homeopathic remedy (consult homeopath)",
         "Regular meal times",
         "Adequate rest and recovery",
         "Avoid over-exertion",
         "Consider Chyawanprash for immunity"] }] else [])))))))))

/-- Source: `predictDiseases`: evaluate the guard table, then
`predictions.sort((a, b) => b.probability - a.probability)` — a stable
descending sort on probability. -/
def predictDiseases (doshaScores : DoshaScores) (lifestyle : LifestyleFactors)
    (params : HealthParameters) : List DiseasePrediction :=
  sortDescBy (fun pr => pr.probability) (predictionsList doshaScores lifestyle params)

/-- C5: for every input, `predictDiseases` output is sorted descending by
probability, and it equals the index-projection of the stably sorted tagged
rule list, whose pairwise order shows equal-probability findings keep the
insertion order of the rules that produced them (smaller rule index first). -/
theorem C5_predictions_sorted_stable (d : DoshaScores) (l : LifestyleFactors)
    (p : HealthParameters) :
    List.Pairwise (fun a b => b.probability ≤ a.probability) (predictDiseases d l p) ∧
    (sortDescBy (fun e : ℕ × DiseasePrediction => e.2.probability)
        ((predictionsList d l p).enum)).map Prod.snd = predictDiseases d l p ∧
    List.Pairwise (StableRel fun pr : DiseasePrediction => pr.probability)
      (sortDescBy (fun e : ℕ × DiseasePrediction => e.2.probability)
        ((predictionsList d l p).enum)) := by
  refine ⟨sortDescBy_sorted _ _, ?_, ?_⟩
  · rw [map_snd_sortDescBy (fun pr : DiseasePrediction => pr.probability),
      map_snd_enum]
    rfl
  · exact pairwise_stable_sortDescBy _ _ (pairwise_fst_lt_enum _)

/-- Evaluation of `calculateDoshaProfile` on the §8 example input: the
all-vata answer set yields the profile `(100, 0, 0)`. -/
theorem profile_c3Params : calculateDoshaProfile c3Params = ⟨100, 0, 0⟩ := by
  have hv : roundPercent (vataAcc c3Params) (totalAcc c3Params) = 100 := by decide
  have hp : roundPercent (pittaAcc c3Params) (totalAcc c3Params) = 0 := by decide
  have hk : roundPercent (kaphaAcc c3Params) (totalAcc c3Params) = 0 := by decide
  rw [calculateDoshaProfile_eq_roundPercent, hv, hp, hk]
  norm_num

/-- A valid lifestyle input: 5 hours of sleep, everything else benign. -/
def c7Lifestyle : LifestyleFactors :=
  { diet := .vegetarian, mealTiming := .regular, waterIntake := .moderate
    sleepHours := 5, exerciseMinutes := 30, stressManagement := .yoga
    screenTime := 2, exerciseFrequency := Option.none }

/-- C7: the rule formulas do not clamp probabilities to `[0,1]`: on a valid
input whose computed profile has vata 100 (> 50), with high stress and five
hours of sleep, the anxiety rule emits probability `0.65 + 100/200 = 1.15 > 1`. -/
theorem C7_probability_not_clamped :
    (calculateDoshaProfile c3Params).vata > 50 ∧
    ∃ f ∈ predictDiseases (calculateDoshaProfile c3Params) c7Lifestyle c3Params,
      1 < f.probability := by
  rw [profile_c3Params]
  refine ⟨by norm_num, ?_⟩
  refine ⟨{ disease := "Anxiety & Sleep Disorders"
            probability := 0.65 + (100 : ℚ) / 200
            severity := if (100 : ℚ) > 50 then .high else .moderate
            ayushSystem := "Ayurveda"
            recommendations :=
              ["Practice Vata-pacifying yoga (gentle, grounding poses)",
               "Follow regular meal times with warm, cooked foods",
               "Abhyanga (oil massage) with sesame oil",
               "Meditation and pranayama for stress reduction",
               "Ensure 7-8 hours of sleep"] }, ?_, by norm_num⟩
  show _ ∈ predictDiseases ⟨100, 0, 0⟩ c7Lifestyle c3Params
  rw [predictDiseases, mem_sortDescBy]
  apply List.mem_append_left
  rw [if_pos]
  · exact List.mem_singleton.mpr rfl
  · exact ⟨by norm_num, rfl, by norm_num [c7Lifestyle]⟩

/-- Source: `const sleepRisk = Math.max(0, (7 - lifestyle.sleepHours) * 10)`. -/
def sleepRisk (lifestyle : LifestyleFactors) : ℚ :=
  max 0 ((7 - lifestyle.sleepHours) * 10)

/-- Source: `exerciseFrequency === 'daily' ? 0 : === 'weekly' ? 15 : 30` —
an `undefined` (absent) field falls through to 30. -/
def exerciseRisk (lifestyle : LifestyleFactors) : ℚ :=
  if lifestyle.exerciseFrequency = some .daily then 0
  else if lifestyle.exerciseFrequency = some .weekly then 15 else 30

/-- Source: `stressManagement === 'none' && stressLevel === 'high' ? 25 :
stressManagement === 'none' ? 15 : 0`. -/
def stressRisk (lifestyle : LifestyleFactors) (params : HealthParameters) : ℚ :=
  if lifestyle.stressManagement = .none ∧ params.stressLevel = .high then 25
  else if lifestyle.stressManagement = .none then 15 else 0

/-- Source: `Math.min(30, Math.max(0, (screenTime - 8) * 3))`. -/
def screenRisk (lifestyle : LifestyleFactors) : ℚ :=
  min 30 (max 0 ((lifestyle.screenTime - 8) * 3))

/-- Source: `waterIntake === 'low' ? 15 : 0`. -/
def waterRisk (lifestyle : LifestyleFactors) : ℚ :=
  if lifestyle.waterIntake = .low then 15 else 0

/-- Source: `mealTiming === 'irregular' ? 20 : 0`. -/
def mealRisk (lifestyle : LifestyleFactors) : ℚ :=
  if lifestyle.mealTiming = .irregular then 20 else 0

/-- The factor record pushed for inadequate sleep. -/
def sleepFactor (lifestyle : LifestyleFactors) : RiskFactor :=
  { factor := "Inadequate Sleep"
    impact := if sleepRisk lifestyle > 20 then "High impact on health"
      else "Moderate impact"
    score := sleepRisk lifestyle }

/-- The factor record pushed for low physical activity. -/
def exerciseFactor (lifestyle : LifestyleFactors) : RiskFactor :=
  { factor := "Low Physical Activity"
    impact := if exerciseRisk lifestyle > 20 then "High impact on metabolism"
      else "Moderate impact"
    score := exerciseRisk lifestyle }

/-- The factor record pushed for poor stress management. -/
def stressFactor (lifestyle : LifestyleFactors) (params : HealthParameters) :
    RiskFactor :=
  { factor := "Poor Stress Management"
    impact := "High impact on mental health"
    score := stressRisk lifestyle params }

/-- The factor record pushed for excessive screen time. -/
def screenFactor (lifestyle : LifestyleFactors) : RiskFactor :=
  { factor := "Excessive Screen Time"
    impact := "Impact on eyes and posture"
    score := screenRisk lifestyle }

/-- The factor record pushed for low water intake. -/
def waterFactor (lifestyle : LifestyleFactors) : RiskFactor :=
  { factor := "Low Water Intake"
    impact := "Impact on digestion and detoxification"
    score := waterRisk lifestyle }

/-- The factor record pushed for irregular meal times. -/
def mealFactor (lifestyle : LifestyleFactors) : RiskFactor :=
  { factor := "Irregular Meal Times"
    impact := "Impact on digestion and metabolism"
    score := mealRisk lifestyle }

/-- The `riskFactors` array as built by the conditional `push` calls of
`calculateLifestyleRisk`, in evaluation order, before the final sort. -/
def riskFactorsList (lifestyle : LifestyleFactors) (params : HealthParameters) :
    List RiskFactor :=
  (if sleepRisk lifestyle > 0 then [sleepFactor lifestyle] else []) ++
  ((if exerciseRisk lifestyle > 0 then [exerciseFactor lifestyle] else []) ++
  ((if stressRisk lifestyle params > 0 then [stressFactor lifestyle params] else []) ++
  ((if screenRisk lifestyle > 0 then [screenFactor lifestyle] else []) ++
  ((if waterRisk lifestyle > 0 then [waterFactor lifestyle] else []) ++
  (if mealRisk lifestyle > 0 then [mealFactor lifestyle] else [])))))

/-- The `totalRisk` accumulator: each term is added only when strictly
positive (mirroring the code; a non-positive term would add 0 anyway). -/
def totalRisk (lifestyle : LifestyleFactors) (params : HealthParameters) : ℚ :=
  (if sleepRisk lifestyle > 0 then sleepRisk lifestyle else 0) +
  (if exerciseRisk lifestyle > 0 then exerciseRisk lifestyle else 0) +
  (if stressRisk lifestyle params > 0 then stressRisk lifestyle params else 0) +
  (if screenRisk lifestyle > 0 then screenRisk lifestyle else 0) +
  (if waterRisk lifestyle > 0 then waterRisk lifestyle else 0) +
  (if mealRisk lifestyle > 0 then mealRisk lifestyle else 0)

/-- Source: `calculateLifestyleRisk`: overall risk is `Math.min(100, totalRisk)` and
the factor list is sorted by `(a, b) => b.score - a.score` (stable,
descending on score). -/
def calculateLifestyleRisk (lifestyle : LifestyleFactors)
    (params : HealthParameters) : LifestyleRiskReport :=
  { overallRisk := min 100 (totalRisk lifestyle params)
    riskFactors := sortDescBy (fun f => f.score) (riskFactorsList lifestyle params) }

/-- The six contribution terms as an unconditional evaluation-ordered list. -/
def allRiskTerms (lifestyle : LifestyleFactors) (params : HealthParameters) :
    List RiskFactor :=
  [sleepFactor lifestyle, exerciseFactor lifestyle, stressFactor lifestyle params,
   screenFactor lifestyle, waterFactor lifestyle, mealFactor lifestyle]

theorem riskFactorsList_eq_filter (lifestyle : LifestyleFactors)
    (params : HealthParameters) :
    riskFactorsList lifestyle params =
      (allRiskTerms lifestyle params).filter (fun f => decide (0 < f.score)) := by
  simp only [riskFactorsList, allRiskTerms, List.filter_cons, List.filter_nil,
    decide_eq_true_eq, sleepFactor, exerciseFactor, stressFactor, screenFactor,
    waterFactor, mealFactor, gt_iff_lt]
  split_ifs <;> simp

theorem sleepRisk_nonneg (l : LifestyleFactors) : 0 ≤ sleepRisk l :=
  le_max_left 0 _

theorem exerciseRisk_nonneg (l : LifestyleFactors) : 0 ≤ exerciseRisk l := by
  rw [exerciseRisk]; split_ifs <;> norm_num

theorem stressRisk_nonneg (l : LifestyleFactors) (p : HealthParameters) :
    0 ≤ stressRisk l p := by
  rw [stressRisk]; split_ifs <;> norm_num

theorem screenRisk_nonneg (l : LifestyleFactors) : 0 ≤ screenRisk l :=
  le_min (by norm_num) (le_max_left 0 _)

theorem waterRisk_nonneg (l : LifestyleFactors) : 0 ≤ waterRisk l := by
  rw [waterRisk]; split_ifs <;> norm_num

theorem mealRisk_nonneg (l : LifestyleFactors) : 0 ≤ mealRisk l := by
  rw [mealRisk]; split_ifs <;> norm_num

theorem ite_self_nonneg (c : Prop) [Decidable c] (t : ℚ) (h : 0 ≤ t) :
    0 ≤ if c then t else 0 := by
  split_ifs
  · exact h
  · exact le_refl 0

theorem totalRisk_nonneg (l : LifestyleFactors) (p : HealthParameters) :
    0 ≤ totalRisk l p := by
  rw [totalRisk]
  have h1 := ite_self_nonneg (sleepRisk l > 0) _ (sleepRisk_nonneg l)
  have h2 := ite_self_nonneg (exerciseRisk l > 0) _ (exerciseRisk_nonneg l)
  have h3 := ite_self_nonneg (stressRisk l p > 0) _ (stressRisk_nonneg l p)
  have h4 := ite_self_nonneg (screenRisk l > 0) _ (screenRisk_nonneg l)
  have h5 := ite_self_nonneg (waterRisk l > 0) _ (waterRisk_nonneg l)
  have h6 := ite_self_nonneg (mealRisk l > 0) _ (mealRisk_nonneg l)
  exact add_nonneg (add_nonneg (add_nonneg (add_nonneg (add_nonneg h1 h2) h3) h4) h5) h6

/-- The §8 clamping example: zero sleep, rare exercise, no stress management,
24 hours of screen time, low water, irregular meals. -/
def c6Lifestyle : LifestyleFactors :=
  { diet := .vegetarian, mealTiming := .irregular, waterIntake := .low
    sleepHours := 0, exerciseMinutes := 0, stressManagement := .none
    screenTime := 24, exerciseFrequency := some .rarely }

/-- C6: the overall lifestyle risk is always within `[0, 100]`; on the §8
example input (with high stress) the raw term sum is 190 and the overall
score is clamped to exactly 100. -/
theorem C6_overall_risk_clamped :
    (∀ (l : LifestyleFactors) (p : HealthParameters),
      0 ≤ (calculateLifestyleRisk l p).overallRisk ∧
      (calculateLifestyleRisk l p).overallRisk ≤ 100) ∧
    totalRisk c6Lifestyle c3Params = 190 ∧
    (calculateLifestyleRisk c6Lifestyle c3Params).overallRisk = 100 := by
  have hs : sleepRisk c6Lifestyle = 70 := by
    rw [sleepRisk]; norm_num [c6Lifestyle, max_def]
  have he : exerciseRisk c6Lifestyle = 30 := rfl
  have hstr : stressRisk c6Lifestyle c3Params = 25 := rfl
  have hscr : screenRisk c6Lifestyle = 30 := by
    rw [screenRisk]; norm_num [c6Lifestyle, max_def, min_def]
  have hw : waterRisk c6Lifestyle = 15 := rfl
  have hm : mealRisk c6Lifestyle = 20 := rfl
  have htot : totalRisk c6Lifestyle c3Params = 190 := by
    rw [totalRisk, hs, he, hstr, hscr, hw, hm]; norm_num
  refine ⟨fun l p => ⟨le_min (by norm_num) (totalRisk_nonneg l p), min_le_left _ _⟩,
    htot, ?_⟩
  show min 100 (totalRisk c6Lifestyle c3Params) = 100
  rw [htot]
  norm_num [min_def]

/-- C9: for every input, the factor list of `calculateLifestyleRisk` is
exactly the strictly positive contribution terms (with their impact strings)
in the stable descending order: it equals the sorted filter of the six-term
table, every listed factor has a positive score, the list is sorted
descending by score, and the tagged stable sort shows ties keep evaluation
order. -/
theorem C9_risk_factors_exact_sorted (l : LifestyleFactors) (p : HealthParameters) :
    (calculateLifestyleRisk l p).riskFactors =
      sortDescBy (fun f => f.score)
        ((allRiskTerms l p).filter (fun f => decide (0 < f.score))) ∧
    (∀ f ∈ (calculateLifestyleRisk l p).riskFactors, 0 < f.score) ∧
    List.Pairwise (fun a b => b.score ≤ a.score)
      (calculateLifestyleRisk l p).riskFactors ∧
    (sortDescBy (fun e : ℕ × RiskFactor => e.2.score)
        ((riskFactorsList l p).enum)).map Prod.snd =
      (calculateLifestyleRisk l p).riskFactors ∧
    List.Pairwise (StableRel fun f : RiskFactor => f.score)
      (sortDescBy (fun e : ℕ × RiskFactor => e.2.score)
        ((riskFactorsList l p).enum)) := by
  refine ⟨?_, ?_, sortDescBy_sorted _ _, ?_,
    pairwise_stable_sortDescBy _ _ (pairwise_fst_lt_enum _)⟩
  · show sortDescBy (fun f => f.score) (riskFactorsList l p) = _
    rw [riskFactorsList_eq_filter]
  · intro f hf
    have hmem : f ∈ riskFactorsList l p := (mem_sortDescBy _ _ _).mp hf
    rw [riskFactorsList_eq_filter] at hmem
    have := List.of_mem_filter hmem
    simpa using this
  · rw [map_snd_sortDescBy (fun f : RiskFactor => f.score), map_snd_enum]
    rfl

/-- Source: `getDominantDosha`: `Math.max` of the three scores, then the first of
Vata, Pitta, Kapha whose score equals the maximum. -/
def getDominantDosha (scores : DoshaScores) : String :=
  let m := max (max scores.vata scores.pitta) scores.kapha
  if scores.vata = m then "Vata"
  else if scores.pitta = m then "Pitta"
  else "Kapha"

/-- C10: `getDominantDosha` returns the label of a maximal score, preferring
Vata over Pitta over Kapha on ties: Pitta is returned only when vata is
strictly below the maximum, Kapha only when vata and pitta both are; in
particular a three-way tie gives Vata and a pitta–kapha tie above vata gives
Pitta. -/
theorem C10_dominant_dosha (s : DoshaScores) :
    ((getDominantDosha s = "Vata" ∧
        s.vata = max (max s.vata s.pitta) s.kapha) ∨
      (getDominantDosha s = "Pitta" ∧
        s.pitta = max (max s.vata s.pitta) s.kapha ∧
        s.vata < max (max s.vata s.pitta) s.kapha) ∨
      (getDominantDosha s = "Kapha" ∧
        s.kapha = max (max s.vata s.pitta) s.kapha ∧
        s.vata < max (max s.vata s.pitta) s.kapha ∧
        s.pitta < max (max s.vata s.pitta) s.kapha)) ∧
    (s.vata = s.pitta → s.pitta = s.kapha → getDominantDosha s = "Vata") ∧
    (s.vata < s.pitta → s.pitta = s.kapha → getDominantDosha s = "Pitta") := by
  have hv_le : s.vata ≤ max (max s.vata s.pitta) s.kapha :=
    le_trans (le_max_left _ _) (le_max_left _ _)
  have hp_le : s.pitta ≤ max (max s.vata s.pitta) s.kapha :=
    le_trans (le_max_right _ _) (le_max_left _ _)
  refine ⟨?_, ?_, ?_⟩
  · by_cases h1 : s.vata = max (max s.vata s.pitta) s.kapha
    · left
      refine ⟨?_, h1⟩
      simp only [getDominantDosha]
      rw [if_pos h1]
    · by_cases h2 : s.pitta = max (max s.vata s.pitta) s.kapha
      · right; left
        refine ⟨?_, h2, lt_of_le_of_ne hv_le h1⟩
        simp only [getDominantDosha]
        rw [if_neg h1, if_pos h2]
      · right; right
        have hk : s.kapha = max (max s.vata s.pitta) s.kapha := by
          rcases max_choice (max s.vata s.pitta) s.kapha with h | h
          · rcases max_choice s.vata s.pitta with h' | h'
            · exact absurd (h.trans h').symm h1
            · exact absurd (h.trans h').symm h2
          · exact h.symm
        refine ⟨?_, hk, lt_of_le_of_ne hv_le h1, lt_of_le_of_ne hp_le h2⟩
        simp only [getDominantDosha]
        rw [if_neg h1, if_neg h2]
  · intro hvp hpk
    have hk' : s.kapha = s.vata := (hvp.trans hpk).symm
    have h1 : max (max s.vata s.pitta) s.kapha = s.vata := by
      rw [← hvp, hk', max_self, max_self]
    simp only [getDominantDosha]
    rw [if_pos h1.symm]
  · intro hvp hpk
    have hmp : max (max s.vata s.pitta) s.kapha = s.pitta := by
      rw [max_eq_right (le_of_lt hvp), ← hpk, max_self]
    have h1 : ¬s.vata = max (max s.vata s.pitta) s.kapha := by
      rw [hmp]
      exact ne_of_lt hvp
    simp only [getDominantDosha]
    rw [if_neg h1, if_pos hmp.symm]

/-- Witness for `C10_dominant_dosha`: a three-way tie returns Vata, and a
pitta–kapha tie above vata returns Pitta. -/
theorem C10_dominant_dosha_witness :
    getDominantDosha ⟨50, 50, 50⟩ = "Vata" ∧
    getDominantDosha ⟨10, 40, 40⟩ = "Pitta" :=
  ⟨(C10_dominant_dosha ⟨50, 50, 50⟩).2.1 rfl rfl,
   (C10_dominant_dosha ⟨10, 40, 40⟩).2.2 (by norm_num) rfl⟩

/-- The runtime value space of `calculateDoshaProfile`'s input: TypeScript
enum annotations are erased at runtime, so each categorical field is an
arbitrary string. -/
structure RawHealthParameters where
  age : ℚ
  weight : ℚ
  height : ℚ
  bodyTemperature : String
  digestion : String
  sleepPattern : String
  energyLevel : String
  skinType : String
  stressLevel : String
  exerciseFrequency : String
deriving DecidableEq, Repr

/-- The runtime result of `calculateDoshaProfile`: each percentage is a
JavaScript number that may be `NaN`, modelled as `Option ℤ` with `none` for
`NaN`. -/
structure RawDoshaScores where
  vata : Option ℤ
  pitta : Option ℤ
  kapha : Option ℤ
deriving DecidableEq, Repr

/-- The `vata` accumulator over raw string fields. -/
def rawVataAcc (params : RawHealthParameters) : ℕ :=
  (if params.bodyTemperature = "cold" then 2 else 0) +
  (if params.digestion = "irregular" then 3 else 0) +
  (if params.sleepPattern = "light" then 2 else 0) +
  (if params.energyLevel = "variable" then 2 else 0) +
  (if params.skinType = "dry" then 2 else 0) +
  (if params.stressLevel = "high" then 2 else 0)

/-- The `pitta` accumulator over raw string fields. -/
def rawPittaAcc (params : RawHealthParameters) : ℕ :=
  (if params.bodyTemperature = "warm" then 2 else 0) +
  (if params.digestion = "strong" then 3 else 0) +
  (if params.sleepPattern = "moderate" then 2 else 0) +
  (if params.energyLevel = "high" then 2 else 0) +
  (if params.skinType = "oily" then 2 else 0) +
  (if params.stressLevel = "moderate" then 1 else 0)

/-- The `kapha` accumulator over raw string fields. -/
def rawKaphaAcc (params : RawHealthParameters) : ℕ :=
  (if params.bodyTemperature = "neutral" then 1 else 0) +
  (if params.digestion = "slow" then 3 else 0) +
  (if params.sleepPattern = "deep" then 2 else 0) +
  (if params.energyLevel = "steady" then 2 else 0) +
  (if params.skinType = "normal" then 1 else 0) +
  (if params.stressLevel = "low" then 1 else 0)

/-- Source function `calculateDoshaProfile` on raw runtime values.  The function performs no
validation: it accumulates whatever string comparisons match and divides by
the total.  When no comparison matches, `total = 0` and JavaScript computes
`0/0 = NaN`, `NaN * 100 = NaN`, `Math.round(NaN) = NaN` for all three
fields — the `none` branch.  It never throws. -/
def rawCalculateDoshaProfile (params : RawHealthParameters) : RawDoshaScores :=
  if (rawVataAcc params : ℚ) + (rawPittaAcc params : ℚ) + (rawKaphaAcc params : ℚ)
      = 0 then
    ⟨Option.none, Option.none, Option.none⟩
  else
    ⟨some (jsRound ((rawVataAcc params : ℚ) /
        ((rawVataAcc params : ℚ) + (rawPittaAcc params : ℚ) +
          (rawKaphaAcc params : ℚ)) * 100)),
     some (jsRound ((rawPittaAcc params : ℚ) /
        ((rawVataAcc params : ℚ) + (rawPittaAcc params : ℚ) +
          (rawKaphaAcc params : ℚ)) * 100)),
     some (jsRound ((rawKaphaAcc params : ℚ) /
        ((rawVataAcc params : ℚ) + (rawPittaAcc params : ℚ) +
          (rawKaphaAcc params : ℚ)) * 100))⟩

/-- The string spelled by each valid `BodyTemperature` value. -/
def bodyTemperatureStr : BodyTemperature → String
  | .cold => "cold"
  | .neutral => "neutral"
  | .warm => "warm"

/-- The string spelled by each valid `Digestion` value. -/
def digestionStr : Digestion → String
  | .irregular => "irregular"
  | .strong => "strong"
  | .slow => "slow"

/-- The string spelled by each valid `SleepPattern` value. -/
def sleepPatternStr : SleepPattern → String
  | .light => "light"
  | .moderate => "moderate"
  | .deep => "deep"

/-- The string spelled by each valid `EnergyLevel` value. -/
def energyLevelStr : EnergyLevel → String
  | .«variable» => "variable"
  | .high => "high"
  | .steady => "steady"

/-- The string spelled by each valid `SkinType` value. -/
def skinTypeStr : SkinType → String
  | .dry => "dry"
  | .oily => "oily"
  | .normal => "normal"

/-- The string spelled by each valid `StressLevel` value. -/
def stressLevelStr : StressLevel → String
  | .high => "high"
  | .moderate => "moderate"
  | .low => "low"

/-- The string spelled by each valid `ExerciseFrequency` value. -/
def exerciseFrequencyStr : ExerciseFrequency → String
  | .daily => "daily"
  | .weekly => "weekly"
  | .rarely => "rarely"

/-- A typed (valid) input viewed as raw runtime data. -/
def rawOf (p : HealthParameters) : RawHealthParameters :=
  ⟨p.age, p.weight, p.height, bodyTemperatureStr p.bodyTemperature,
   digestionStr p.digestion, sleepPatternStr p.sleepPattern,
   energyLevelStr p.energyLevel, skinTypeStr p.skinType,
   stressLevelStr p.stressLevel, exerciseFrequencyStr p.exerciseFrequency⟩

theorem rawAccs_agree (p : HealthParameters) :
    rawVataAcc (rawOf p) = vataAcc p ∧ rawPittaAcc (rawOf p) = pittaAcc p ∧
    rawKaphaAcc (rawOf p) = kaphaAcc p := by
  have h : ∀ (bt : BodyTemperature) (dg : Digestion) (sl : SleepPattern)
      (en : EnergyLevel) (sk : SkinType) (st : StressLevel),
      rawVataAcc (rawOf ⟨0, 0, 0, bt, dg, sl, en, sk, st, .daily⟩) =
        vataAcc ⟨0, 0, 0, bt, dg, sl, en, sk, st, .daily⟩ ∧
      rawPittaAcc (rawOf ⟨0, 0, 0, bt, dg, sl, en, sk, st, .daily⟩) =
        pittaAcc ⟨0, 0, 0, bt, dg, sl, en, sk, st, .daily⟩ ∧
      rawKaphaAcc (rawOf ⟨0, 0, 0, bt, dg, sl, en, sk, st, .daily⟩) =
        kaphaAcc ⟨0, 0, 0, bt, dg, sl, en, sk, st, .daily⟩ := by decide
  exact h p.bodyTemperature p.digestion p.sleepPattern p.energyLevel
    p.skinType p.stressLevel

/-- On every valid (typed) input, the raw runtime function returns the same
three rounded percentages as the typed model — never the `NaN` branch. -/
theorem rawCalculateDoshaProfile_agrees (p : HealthParameters) :
    rawCalculateDoshaProfile (rawOf p) =
      ⟨some (roundPercent (vataAcc p) (totalAcc p) : ℤ),
       some (roundPercent (pittaAcc p) (totalAcc p) : ℤ),
       some (roundPercent (kaphaAcc p) (totalAcc p) : ℤ)⟩ := by
  obtain ⟨h1, h2, h3⟩ := rawAccs_agree p
  have hcast : ((vataAcc p : ℚ) + (pittaAcc p : ℚ) + (kaphaAcc p : ℚ)) =
      ((totalAcc p : ℕ) : ℚ) := by rw [totalAcc]; push_cast; ring
  have ht := totalAcc_pos p
  have hne : ((vataAcc p : ℚ) + (pittaAcc p : ℚ) + (kaphaAcc p : ℚ)) ≠ 0 := by
    rw [hcast]
    exact_mod_cast ht.ne'
  rw [rawCalculateDoshaProfile, h1, h2, h3, if_neg hne, hcast,
    jsRound_div_mul_hundred _ _ ht, jsRound_div_mul_hundred _ _ ht,
    jsRound_div_mul_hundred _ _ ht]

/-- An input every one of whose categorical fields lies outside its declared
domain. -/
def invalidParams : RawHealthParameters :=
  { age := 30, weight := 70, height := 170, bodyTemperature := "hot"
    digestion := "fast", sleepPattern := "heavy", energyLevel := "low"
    skinType := "rough", stressLevel := "extreme", exerciseFrequency := "sometimes" }

/-- C2 counterexample: on an input whose enumerated fields are all outside
their declared domains, `calculateDoshaProfile` does not reject — it returns
a fully NaN-laced output (all accumulators 0, so every percentage is
`Math.round(0/0 * 100) = NaN`). -/
theorem C2_counterexample :
    rawCalculateDoshaProfile invalidParams =
      ⟨Option.none, Option.none, Option.none⟩ := by
  have hv : rawVataAcc invalidParams = 0 := by decide
  have hp : rawPittaAcc invalidParams = 0 := by decide
  have hk : rawKaphaAcc invalidParams = 0 := by decide
  rw [rawCalculateDoshaProfile, hv, hp, hk, if_pos]
  norm_num

/-- The runtime value space of the lifestyle input: enum annotations erased,
each categorical field an arbitrary string. -/
structure RawLifestyleFactors where
  diet : String
  mealTiming : String
  waterIntake : String
  sleepHours : ℚ
  exerciseMinutes : ℚ
  stressManagement : String
  screenTime : ℚ
  exerciseFrequency : String
deriving DecidableEq, Repr

/-- Body-mass index over raw runtime values. -/
def rawBmiOf (params : RawHealthParameters) : ℚ :=
  params.weight / (params.height / 100) ^ 2

/-- The prediction list of `predictDiseases` over raw runtime values: every
enum comparison is a string comparison, exactly as at runtime. -/
def rawPredictionsList (doshaScores : DoshaScores) (lifestyle : RawLifestyleFactors)
    (params : RawHealthParameters) : List DiseasePrediction :=
  (if doshaScores.vata > 40 ∧ params.stressLevel = "high" ∧ lifestyle.sleepHours < 6 then
    [{ disease := "Anxiety & Sleep Disorders"
       probability := 0.65 + doshaScores.vata / 200
       severity := if doshaScores.vata > 50 then .high else .moderate
       ayushSystem := "Ayurveda"
       recommendations :=
        ["Practice Vata-pacifying yoga (gentle, grounding poses)",
         "Follow regular meal times with warm, cooked foods",
         "Abhyanga (oil massage) with sesame oil",
         "Meditation and pranayama for stress reduction",
         "Ensure 7-8 hours of sleep"] }] else []) ++
  ((if doshaScores.vata > 40 ∧ params.digestion = "irregular" then
    [{ disease := "Digestive Irregularity (Vishamagni)"
       probability := 0.55 + doshaScores.vata / 250
       severity := .moderate
       ayushSystem := "Ayurveda"
       recommendations :=
        ["Consume ginger tea before meals",
         "Avoid cold and raw foods",
         "Practice mindful eating",
         "Take Triphala supplement (consult practitioner)"] }] else []) ++
  ((if doshaScores.pitta > 40 ∧ params.stressLevel = "high" ∧
      lifestyle.mealTiming = "irregular" then
    [{ disease := "Hyperacidity & Inflammatory Conditions"
       probability := 0.60 + doshaScores.pitta / 200
       severity := if doshaScores.pitta > 50 then .high else .moderate
       ayushSystem := "Ayurveda"
       recommendations :=
        ["Avoid spicy, fried, and acidic foods",
         "Practice cooling pranayama (Shitali, Sitkari)",
         "Consume cooling foods (cucumber, coconut, coriander)",
         "Avoid excessive sun exposure",
         "Practice stress management techniques"] }] else []) ++
  ((if doshaScores.pitta > 40 ∧ params.bodyTemperature = "warm" then
    [{ disease := "Skin Inflammation & Rashes"
       probability := 0.45 + doshaScores.pitta / 250
       severity := .moderate
       ayushSystem := "Ayurveda"
       recommendations :=
        ["Apply cooling herbs like neem and aloe vera",
         "Avoid hot and spicy foods",
         "Practice yoga in cooler hours",
         "Stay hydrated with room temperature water"] }] else []) ++
  ((if doshaScores.kapha > 40 ∧ rawBmiOf params > 25 ∧
      lifestyle.exerciseFrequency = "rarely" then
    [{ disease := "Metabolic Syndrome Risk"
       probability := 0.55 + doshaScores.kapha / 200 + (rawBmiOf params - 25) / 50
       severity := if rawBmiOf params > 30 then .high else .moderate
       ayushSystem := "Ayurveda & Yoga"
       recommendations :=
        ["Daily exercise (minimum 30 minutes)",
         "Avoid heavy, oily, and sweet foods",
         "Practice vigorous yoga styles (Surya Namaskar)",
         "Consume warm water with honey and lemon",
         "Include more vegetables and reduce dairy"] }] else []) ++
  ((if doshaScores.kapha > 40 ∧ params.digestion = "slow" ∧
      lifestyle.waterIntake = "low" then
    [{ disease := "Sluggish Digestion & Water Retention"
       probability := 0.50 + doshaScores.kapha / 250
       severity := .moderate
       ayushSystem := "Ayurveda & Naturopathy"
       recommendations :=
        ["Increase water intake (warm water preferred)",
         "Consume light, warm meals",
         "Practice Kapalabhati pranayama",
         "Add ginger, black pepper to diet",
         "Avoid sleeping during day"] }] else []) ++
  ((if lifestyle.screenTime > 8 ∧ params.stressLevel = "high" then
    [{ disease := "Digital Eye Strain & Mental Fatigue"
       probability := 0.70
       severity := .moderate
       ayushSystem := "Yoga & Naturopathy"
       recommendations :=
        ["Practice Trataka (candle gazing) for eye health",
         "Follow 20-20-20 rule (every 20 min, look 20 feet away for 20 sec)",
         "Eye exercises and palming",
         "Reduce screen time before bed",
         "Use rose water eye drops (natural)"] }] else []) ++
  ((if lifestyle.sleepHours < 6 then
    [{ disease := "Sleep Deprivation Syndrome"
       probability := 0.75
       severity := if lifestyle.sleepHours < 5 then .high else .moderate
       ayushSystem := "Ayurveda & Yoga"
       recommendations :=
        ["Establish consistent sleep schedule",
         "Practice Yoga Nidra before bed",
         "Avoid caffeine after 3 PM",
         "Create dark, cool sleeping environment",
         "Massage feet with warm oil before sleep"] }] else []) ++
  ((if lifestyle.stressManagement = "none" ∧ params.stressLevel = "high" then
    [{ disease := "Chronic Stress & Burnout Risk"
       probability := 0.68
       severity := .high
       ayushSystem := "Yoga & Ayurveda"
       recommendations :=
        ["Start daily meditation practice (10-15 minutes)",
         "Practice pranayama (Anulom Vilom, Bhramari)",
         "Consider Ashwagandha supplementation (consult practitioner)",
         "Regular yoga practice",
         "Maintain work-life balance"] }] else []) ++
  (if params.energyLevel = "variable" ∧ doshaScores.vata > 35 then
    [{ disease := "Constitutional Weakness"
       probability := 0.50
       severity := .low
       ayushSystem := "Homeopathy & Ayurveda"
       recommendations :=
        ["Constitutional homeopathic remedy (consult homeopath)",
         "Regular meal times",
         "Adequate rest and recovery",
         "Avoid over-exertion",
         "Consider Chyawanprash for immunity"] }] else [])))))))))

/-- Source function `predictDiseases` over raw runtime values. -/
def rawPredictDiseases (doshaScores : DoshaScores) (lifestyle : RawLifestyleFactors)
    (params : RawHealthParameters) : List DiseasePrediction :=
  sortDescBy (fun pr => pr.probability)
    (rawPredictionsList doshaScores lifestyle params)

/-- Raw-value version of the sleep term. -/
def rawSleepRisk (lifestyle : RawLifestyleFactors) : ℚ :=
  max 0 ((7 - lifestyle.sleepHours) * 10)

/-- Raw-value version of the exercise term: any string other than "daily"
or "weekly" falls through to 30, exactly as at runtime. -/
def rawExerciseRisk (lifestyle : RawLifestyleFactors) : ℚ :=
  if lifestyle.exerciseFrequency = "daily" then 0
  else if lifestyle.exerciseFrequency = "weekly" then 15 else 30

/-- Raw-value version of the stress-management term. -/
def rawStressRisk (lifestyle : RawLifestyleFactors) (params : RawHealthParameters) : ℚ :=
  if lifestyle.stressManagement = "none" ∧ params.stressLevel = "high" then 25
  else if lifestyle.stressManagement = "none" then 15 else 0

/-- Raw-value version of the screen-time term. -/
def rawScreenRisk (lifestyle : RawLifestyleFactors) : ℚ :=
  min 30 (max 0 ((lifestyle.screenTime - 8) * 3))

/-- Raw-value version of the water-intake term. -/
def rawWaterRisk (lifestyle : RawLifestyleFactors) : ℚ :=
  if lifestyle.waterIntake = "low" then 15 else 0

/-- Raw-value version of the meal-timing term. -/
def rawMealRisk (lifestyle : RawLifestyleFactors) : ℚ :=
  if lifestyle.mealTiming = "irregular" then 20 else 0

/-- Raw-value factor record for inadequate sleep. -/
def rawSleepFactor (lifestyle : RawLifestyleFactors) : RiskFactor :=
  { factor := "Inadequate Sleep"
    impact := if rawSleepRisk lifestyle > 20 then "High impact on health"
      else "Moderate impact"
    score := rawSleepRisk lifestyle }

/-- Raw-value factor record for low physical activity. -/
def rawExerciseFactor (lifestyle : RawLifestyleFactors) : RiskFactor :=
  { factor := "Low Physical Activity"
    impact := if rawExerciseRisk lifestyle > 20 then "High impact on metabolism"
      else "Moderate impact"
    score := rawExerciseRisk lifestyle }

/-- Raw-value factor record for poor stress management. -/
def rawStressFactor (lifestyle : RawLifestyleFactors) (params : RawHealthParameters) :
    RiskFactor :=
  { factor := "Poor Stress Management"
    impact := "High impact on mental health"
    score := rawStressRisk lifestyle params }

/-- Raw-value factor record for excessive screen time. -/
def rawScreenFactor (lifestyle : RawLifestyleFactors) : RiskFactor :=
  { factor := "Excessive Screen Time"
    impact := "Impact on eyes and posture"
    score := rawScreenRisk lifestyle }

/-- Raw-value factor record for low water intake. -/
def rawWaterFactor (lifestyle : RawLifestyleFactors) : RiskFactor :=
  { factor := "Low Water Intake"
    impact := "Impact on digestion and detoxification"
    score := rawWaterRisk lifestyle }

/-- Raw-value factor record for irregular meal times. -/
def rawMealFactor (lifestyle : RawLifestyleFactors) : RiskFactor :=
  { factor := "Irregular Meal Times"
    impact := "Impact on digestion and metabolism"
    score := rawMealRisk lifestyle }

/-- Raw-value version of the conditionally pushed factor array. -/
def rawRiskFactorsList (lifestyle : RawLifestyleFactors) (params : RawHealthParameters) :
    List RiskFactor :=
  (if rawSleepRisk lifestyle > 0 then [rawSleepFactor lifestyle] else []) ++
  ((if rawExerciseRisk lifestyle > 0 then [rawExerciseFactor lifestyle] else []) ++
  ((if rawStressRisk lifestyle params > 0 then [rawStressFactor lifestyle params] else []) ++
  ((if rawScreenRisk lifestyle > 0 then [rawScreenFactor lifestyle] else []) ++
  ((if rawWaterRisk lifestyle > 0 then [rawWaterFactor lifestyle] else []) ++
  (if rawMealRisk lifestyle > 0 then [rawMealFactor lifestyle] else [])))))

/-- Raw-value version of the `totalRisk` accumulator. -/
def rawTotalRisk (lifestyle : RawLifestyleFactors) (params : RawHealthParameters) : ℚ :=
  (if rawSleepRisk lifestyle > 0 then rawSleepRisk lifestyle else 0) +
  (if rawExerciseRisk lifestyle > 0 then rawExerciseRisk lifestyle else 0) +
  (if rawStressRisk lifestyle params > 0 then rawStressRisk lifestyle params else 0) +
  (if rawScreenRisk lifestyle > 0 then rawScreenRisk lifestyle else 0) +
  (if rawWaterRisk lifestyle > 0 then rawWaterRisk lifestyle else 0) +
  (if rawMealRisk lifestyle > 0 then rawMealRisk lifestyle else 0)

/-- Source function `calculateLifestyleRisk` over raw runtime values. -/
def rawCalculateLifestyleRisk (lifestyle : RawLifestyleFactors)
    (params : RawHealthParameters) : LifestyleRiskReport :=
  { overallRisk := min 100 (rawTotalRisk lifestyle params)
    riskFactors := sortDescBy (fun f => f.score) (rawRiskFactorsList lifestyle params) }


theorem rawSleepRisk_nonneg (l : RawLifestyleFactors) : 0 ≤ rawSleepRisk l :=
  le_max_left 0 _

theorem rawScreenRisk_nonneg (l : RawLifestyleFactors) : 0 ≤ rawScreenRisk l :=
  le_min (by norm_num) (le_max_left 0 _)

theorem ite_gt_self_of_nonneg (x : ℚ) (h : 0 ≤ x) :
    (if x > 0 then x else 0) = x := by
  split_ifs with hx
  · rfl
  · exact (le_antisymm (not_lt.mp hx) h).symm

/-- C2 (amended): none of the three core functions validates its input or
fails on out-of-domain values — each computes and returns a result from
whatever values it is given.  On any input whose enumerated fields all lie
outside their declared domains: `calculateDoshaProfile` returns a fully
NaN-laced triple (all accumulators 0, a 0/0 division per percentage);
`predictDiseases` returns the ordinary list containing just the
enum-independent sleep-deprivation finding (or nothing); and
`calculateLifestyleRisk` returns an ordinary report built from the 30-point
inactivity fallback plus the numeric sleep and screen terms. -/
theorem C2_no_validation (p : RawHealthParameters) (l : RawLifestyleFactors)
    (d : DoshaScores)
    (h1 : p.bodyTemperature ∉ (["cold", "warm", "neutral"] : List String))
    (h2 : p.digestion ∉ (["irregular", "strong", "slow"] : List String))
    (h3 : p.sleepPattern ∉ (["light", "moderate", "deep"] : List String))
    (h4 : p.energyLevel ∉ (["variable", "high", "steady"] : List String))
    (h5 : p.skinType ∉ (["dry", "oily", "normal"] : List String))
    (h6 : p.stressLevel ∉ (["high", "moderate", "low"] : List String))
    (h7 : l.mealTiming ∉ (["regular", "irregular"] : List String))
    (h8 : l.waterIntake ∉ (["low", "moderate", "high"] : List String))
    (h9 : l.stressManagement ∉ (["yoga", "meditation", "none", "other"] : List String))
    (h10 : l.exerciseFrequency ∉ (["daily", "weekly", "rarely"] : List String)) :
    rawCalculateDoshaProfile p = ⟨Option.none, Option.none, Option.none⟩ ∧
    rawPredictDiseases d l p =
      (if l.sleepHours < 6 then
        [{ disease := "Sleep Deprivation Syndrome"
           probability := 0.75
           severity := if l.sleepHours < 5 then .high else .moderate
           ayushSystem := "Ayurveda & Yoga"
           recommendations :=
            ["Establish consistent sleep schedule",
             "Practice Yoga Nidra before bed",
             "Avoid caffeine after 3 PM",
             "Create dark, cool sleeping environment",
             "Massage feet with warm oil before sleep"] }] else []) ∧
    rawCalculateLifestyleRisk l p =
      { overallRisk := min 100 (rawSleepRisk l + 30 + rawScreenRisk l)
        riskFactors := sortDescBy (fun f => f.score)
          ((if rawSleepRisk l > 0 then [rawSleepFactor l] else []) ++
           ([{ factor := "Low Physical Activity"
               impact := "High impact on metabolism"
               score := 30 }] ++
            (if rawScreenRisk l > 0 then [rawScreenFactor l] else []))) } := by
  simp only [List.mem_cons, List.not_mem_nil, or_false, not_or]
    at h1 h2 h3 h4 h5 h6 h7 h8 h9 h10
  have hbw : p.bodyTemperature ≠ "warm" := h1.2.1
  have hdi : p.digestion ≠ "irregular" := h2.1
  have hds : p.digestion ≠ "slow" := h2.2.2
  have hev : p.energyLevel ≠ "variable" := h4.1
  have hsh : p.stressLevel ≠ "high" := h6.1
  have hmi : l.mealTiming ≠ "irregular" := h7.2
  have hwl : l.waterIntake ≠ "low" := h8.1
  have hsn : l.stressManagement ≠ "none" := h9.2.2.1
  have hed : l.exerciseFrequency ≠ "daily" := h10.1
  have hew : l.exerciseFrequency ≠ "weekly" := h10.2.1
  have her : l.exerciseFrequency ≠ "rarely" := h10.2.2
  refine ⟨?_, ?_, ?_⟩
  · have hv : rawVataAcc p = 0 := by
      rw [rawVataAcc]
      simp [h1.1, h2.1, h3.1, h4.1, h5.1, h6.1]
    have hp : rawPittaAcc p = 0 := by
      rw [rawPittaAcc]
      simp [h1.2.1, h2.2.1, h3.2.1, h4.2.1, h5.2.1, h6.2.1]
    have hk : rawKaphaAcc p = 0 := by
      rw [rawKaphaAcc]
      simp [h1.2.2, h2.2.2, h3.2.2, h4.2.2, h5.2.2, h6.2.2]
    rw [rawCalculateDoshaProfile, hv, hp, hk, if_pos]
    norm_num
  · by_cases hs : l.sleepHours < 6
    · simp [rawPredictDiseases, rawPredictionsList, hbw, hdi, hds, hev, hsh,
        hmi, hwl, hsn, her, hs, sortDescBy, insertDescBy]
    · simp [rawPredictDiseases, rawPredictionsList, hbw, hdi, hds, hev, hsh,
        hmi, hwl, hsn, her, hs, sortDescBy]
  · have he30 : rawExerciseRisk l = 30 := by
      rw [rawExerciseRisk, if_neg hed, if_neg hew]
    have hst0 : rawStressRisk l p = 0 := by
      rw [rawStressRisk, if_neg (fun hc => hsn hc.1), if_neg hsn]
    have hw0 : rawWaterRisk l = 0 := by rw [rawWaterRisk, if_neg hwl]
    have hm0 : rawMealRisk l = 0 := by rw [rawMealRisk, if_neg hmi]
    rw [rawCalculateLifestyleRisk]
    congr 1
    · rw [rawTotalRisk, he30, hst0, hw0, hm0,
        ite_gt_self_of_nonneg _ (rawSleepRisk_nonneg l),
        ite_gt_self_of_nonneg _ (rawScreenRisk_nonneg l)]
      norm_num
    · rw [rawRiskFactorsList, he30, hst0, hw0, hm0]
      simp only [rawExerciseFactor, he30]
      norm_num

/-- A lifestyle input every one of whose categorical fields lies outside its
declared domain. -/
def invalidLifestyle : RawLifestyleFactors :=
  { diet := "carnivore", mealTiming := "random", waterIntake := "sparse"
    sleepHours := 5, exerciseMinutes := 0, stressManagement := "television"
    screenTime := 2, exerciseFrequency := "sometimes" }

/-- Witness for `C2_no_validation`, at the concrete invalid inputs. -/
theorem C2_no_validation_witness :
    rawCalculateDoshaProfile invalidParams =
      ⟨Option.none, Option.none, Option.none⟩ :=
  (C2_no_validation invalidParams invalidLifestyle ⟨50, 30, 20⟩
    (by decide) (by decide) (by decide) (by decide) (by decide) (by decide)
    (by decide) (by decide) (by decide) (by decide)).1

end Ayush
